import Mathlib

/-!
Shallow embedding of the blog-platform like/pagination subsystem.

The relational store is modelled as lists of rows (`DB`); SQL statements and
TypeORM query-builder calls become list filters, maps and appends; `NOW()` /
`CreateDateColumn` defaults become an explicit `now : Nat` parameter threaded
through the mutating operations; `Date.toISOString()` is modelled by the
`TimeVal.iso` constructor so that raw timestamps and ISO strings stay
distinguishable in the views.
-/

structure LikeRow where
  user_id : String
  user_login : String
  entity_id : String
  entity_type : String
  status : String
  created_at : Nat
deriving DecidableEq

structure PostRow where
  id : String
  title : String
  shortDescription : String
  content : String
  blog_id : String
  blogName : String
  likesCount : Int
  dislikesCount : Int
  created_at : Nat
  deletionStatus : String
deriving DecidableEq

structure CommentRow where
  id : String
  content : String
  post_id : String
  user_id : String
  user_login : String
  created_at : Nat
  deletion_status : String
deriving DecidableEq

structure DB where
  posts : List PostRow
  comments : List CommentRow
  likes : List LikeRow
deriving DecidableEq

/-- A timestamp value as it appears in a view: either the raw stored value
(`Date` passed through unchanged) or the result of `toISOString()`. -/
inductive TimeVal where
  | raw (t : Nat)
  | iso (t : Nat)
deriving DecidableEq

structure CommentatorInfo where
  userId : String
  userLogin : String
deriving DecidableEq

structure LikesInfo where
  likesCount : Nat
  dislikesCount : Nat
  myStatus : String
deriving DecidableEq

structure CommentView where
  id : String
  content : String
  commentatorInfo : CommentatorInfo
  createdAt : TimeVal
  likesInfo : LikesInfo
deriving DecidableEq

structure NewestLike where
  addedAt : TimeVal
  userId : String
  login : String
deriving DecidableEq

structure ExtendedLikesInfo where
  likesCount : Int
  dislikesCount : Int
  myStatus : String
  newestLikes : List NewestLike
deriving DecidableEq

structure PostView where
  id : String
  title : String
  shortDescription : String
  content : String
  blogId : String
  blogName : String
  createdAt : TimeVal
  extendedLikesInfo : ExtendedLikesInfo
deriving DecidableEq

structure Paginated (α : Type) where
  pagesCount : Nat
  page : Nat
  pageSize : Nat
  totalCount : Nat
  items : List α
deriving DecidableEq

/-- Query DTO for comment listings; `none` models a missing (undefined) field. -/
structure GetCommentsQuery where
  pageNumber : Option Nat
  pageSize : Option Nat
  sortBy : Option String
  sortDirection : Option String

/-- Query DTO for post listings. -/
structure GetPostsQuery where
  pageNumber : Option Nat
  pageSize : Option Nat
  sortBy : Option String
  sortDirection : Option String

/-- The shared `WHERE user_id = .. AND entity_id = .. AND entity_type = ..`
condition of the `likes` queries. -/
def matchesTriple (userId entityId entityType : String) (l : LikeRow) : Bool :=
  l.user_id == userId && l.entity_id == entityId && l.entity_type == entityType

/-- `PostsRepository.normalizeLikeStatus`: exact-match comparison against the
enum values; every other string (including lowercase spellings) maps to None. -/
def normalizeLikeStatus (status : String) : String :=
  if status = "Like" then "Like"
  else if status = "Dislike" then "Dislike"
  else "None"

/-- JavaScript `toUpperCase()` modelled on the character data (ASCII). -/
def toUpperString (s : String) : String :=
  String.mk (s.data.map Char.toUpper)

/-- `status.charAt(0).toUpperCase() + status.slice(1).toLowerCase()` from
`CommentRepository.updateLikeForComment`. -/
def capitalizeStatus (s : String) : String :=
  match s.data with
  | [] => ""
  | c :: cs => String.mk (c.toUpper :: cs.map Char.toLower)

/-- The `UPDATE posts SET <likesCount|dislikesCount> = .. - 1 WHERE id = ..`
issued for the old status in `updateLikeForPost`. -/
def decPostCounter (postId cs : String) (p : PostRow) : PostRow :=
  if p.id = postId then
    (if cs = "Like" then { p with likesCount := p.likesCount - 1 }
     else { p with dislikesCount := p.dislikesCount - 1 })
  else p

/-- The `UPDATE posts SET <likesCount|dislikesCount> = .. + 1 WHERE id = ..`
issued for the new status in `updateLikeForPost`. -/
def incPostCounter (postId ns : String) (p : PostRow) : PostRow :=
  if p.id = postId then
    (if ns = "Like" then { p with likesCount := p.likesCount + 1 }
     else { p with dislikesCount := p.dislikesCount + 1 })
  else p

/-- `PostsRepository.updateLikeForPost`.  The source reads the current row
(`currentLike[0]?.status`), and `if (currentStatus)` is JavaScript truthiness:
it is false both when no row exists and when the stored status is the empty
string.  When truthy it deletes every row of the triple and decrements the
counter matching the old status; when the normalized new status is not None it
inserts a fresh row (with `NOW()`, here the `now` argument) and increments the
matching counter. -/
def updateLikeForPost (db : DB) (postId userId userLogin status : String)
    (now : Nat) : DB :=
  let normalizedStatus := normalizeLikeStatus status
  let db1 :=
    match (db.likes.filter (matchesTriple userId postId "Post")).head? with
    | some row =>
      if row.status = "" then db
      else
        { db with
          likes := db.likes.filter (fun l => !(matchesTriple userId postId "Post" l)),
          posts := db.posts.map (decPostCounter postId row.status) }
    | none => db
  if normalizedStatus ≠ "None" then
    { db1 with
      likes := db1.likes ++ [⟨userId, userLogin, postId, "Post", normalizedStatus, now⟩],
      posts := db1.posts.map (incPostCounter postId normalizedStatus) }
  else db1

/-- `CommentRepository.updateLikeForComment`: capitalizes the status, deletes
the row on None, otherwise updates in place when a row exists (leaving
`created_at` untouched) or inserts a fresh row. -/
def updateLikeForComment (db : DB) (commentId userId userLogin status : String)
    (now : Nat) : DB :=
  let normalizedStatus := capitalizeStatus status
  if normalizedStatus = "None" then
    let remaining := db.likes.filter (fun l => !(matchesTriple userId commentId "Comment" l))
    { db with likes := remaining }
  else
    let existing := db.likes.filter (matchesTriple userId commentId "Comment")
    if existing.length > 0 then
      let updated := db.likes.map (fun l =>
        if matchesTriple userId commentId "Comment" l then
          { l with status := normalizedStatus } else l)
      { db with likes := updated }
    else
      { db with likes := db.likes ++ [⟨userId, userLogin, commentId, "Comment", normalizedStatus, now⟩] }

/-- `SELECT COUNT(*) FROM likes WHERE entity_id = .. AND entity_type =
'Comment' AND status = ..`. -/
def commentLikesCount (db : DB) (commentId status : String) : Nat :=
  (db.likes.filter (fun l =>
    l.entity_id == commentId && l.entity_type == "Comment" && l.status == status)).length

/-- `CommentRepository.findById`: first active comment with the given id,
assembled into the public view (`createdAt` via `toISOString()`). -/
def findById (db : DB) (commentId : String) (currentUserId : Option String) :
    Option CommentView :=
  match (db.comments.filter (fun c =>
      c.id == commentId && c.deletion_status == "active")).head? with
  | none => none
  | some comment =>
    let myStatus :=
      match currentUserId with
      | some uid =>
        if uid = "" then "None"
        else
          match (db.likes.filter (matchesTriple uid commentId "Comment")).head? with
          | some r => r.status
          | none => "None"
      | none => "None"
    some { id := comment.id, content := comment.content,
           commentatorInfo := { userId := comment.user_id,
                                userLogin := comment.user_login },
           createdAt := TimeVal.iso comment.created_at,
           likesInfo := { likesCount := commentLikesCount db commentId "Like",
                          dislikesCount := commentLikesCount db commentId "Dislike",
                          myStatus := myStatus } }

/-- `UPDATE comments SET content = .. WHERE id = ..`. -/
def updateContent (db : DB) (commentId content : String) : DB :=
  { db with comments := db.comments.map (fun c =>
      if c.id = commentId then { c with content := content } else c) }

/-- `UPDATE comments SET deletion_status = 'deleted' WHERE id = ..`
(`CommentRepository.delete`). -/
def deleteCommentRow (db : DB) (commentId : String) : DB :=
  { db with comments := db.comments.map (fun c =>
      if c.id = commentId then { c with deletion_status := "deleted" } else c) }

/-- `PostsRepository.deletePost`: `UPDATE posts SET deletionStatus = 'deleted'
WHERE id = .. AND blog_id = ..`. -/
def deletePost (db : DB) (postId blogId : String) : DB :=
  { db with posts := db.posts.map (fun p =>
      if p.id == postId && p.blog_id == blogId then
        { p with deletionStatus := "deleted" } else p) }

inductive ServiceError where
  | notFound
  | forbidden
deriving DecidableEq

/-- `CommentService.updateComment`: existence check (via `findById`, which
filters on `deletion_status = 'active'`) first, then the authorship check,
then the content update.  A failure leaves the store untouched. -/
def updateComment (db : DB) (commentId content userId : String) :
    Option ServiceError × DB :=
  match findById db commentId none with
  | none => (some ServiceError.notFound, db)
  | some comment =>
    if comment.commentatorInfo.userId ≠ userId then
      (some ServiceError.forbidden, db)
    else (none, updateContent db commentId content)

/-- `CommentService.deleteComment`: same guard order as `updateComment`,
followed by the soft delete. -/
def deleteComment (db : DB) (commentId userId : String) :
    Option ServiceError × DB :=
  match findById db commentId none with
  | none => (some ServiceError.notFound, db)
  | some comment =>
    if comment.commentatorInfo.userId ≠ userId then
      (some ServiceError.forbidden, db)
    else (none, deleteCommentRow db commentId)

/-- Insertion step of the sort used to model SQL `ORDER BY`. -/
def insertLe {α : Type} (le : α → α → Bool) (a : α) : List α → List α
  | [] => [a]
  | b :: l => if le a b then a :: b :: l else b :: insertLe le a l

/-- Insertion sort by a boolean comparison, modelling SQL `ORDER BY` (the
order among rows with equal keys is unspecified in SQL; this sort fixes one
such order). -/
def sortLe {α : Type} (le : α → α → Bool) : List α → List α
  | [] => []
  | a :: l => insertLe le a (sortLe le l)

/-- `Math.ceil(totalCount / pageSize)` for natural numbers (`pageSize > 0`). -/
def cdiv (n ps : Nat) : Nat := (n + ps - 1) / ps

/-- The rows of `SELECT .. FROM comments WHERE post_id = .. AND
deletion_status = 'active'` (shared by the listing query and its COUNT). -/
def activeCommentsFor (db : DB) (postId : String) : List CommentRow :=
  db.comments.filter (fun c => c.post_id == postId && c.deletion_status == "active")

/-- The `sortableFieldsMap` lookup of `getCommentsForPost`: `query.sortBy ||
'createdAt'` (empty string is falsy) followed by the allow-list mapping with
fallback `created_at`. -/
def commentsSortColumn (sortBy : Option String) : String :=
  let sortByRaw := match sortBy with
    | some s => if s = "" then "createdAt" else s
    | none => "createdAt"
  if sortByRaw = "content" then "content"
  else if sortByRaw = "createdAt" then "created_at"
  else "created_at"

/-- `query.sortDirection?.toUpperCase() === 'ASC' ? 'ASC' : 'DESC'` from
`getCommentsForPost`. -/
def commentsSortDirection (sortDirection : Option String) : String :=
  match sortDirection with
  | some s => if toUpperString s = "ASC" then "ASC" else "DESC"
  | none => "DESC"

/-- Key comparison for the comment listing's `ORDER BY` column. -/
def commentKeyLe (col : String) (a b : CommentRow) : Bool :=
  if col = "content" then a.content ≤ b.content else a.created_at ≤ b.created_at

/-- The filtered and sorted row set of the main `getCommentsForPost` query
(before `LIMIT`/`OFFSET`). -/
def sortedCommentRows (db : DB) (postId : String) (sb sd : Option String) :
    List CommentRow :=
  let col := commentsSortColumn sb
  let dir := commentsSortDirection sd
  sortLe (fun a b => if dir = "ASC" then commentKeyLe col a b else commentKeyLe col b a)
    (activeCommentsFor db postId)

/-- Per-item `myStatus` resolution of the comment listing: skipped for a falsy
(empty) `currentUserId`, otherwise `like[0]?.status || 'None'`. -/
def commentMyStatus (db : DB) (commentId userId : String) : String :=
  if userId = "" then "None"
  else
    match (db.likes.filter (matchesTriple userId commentId "Comment")).head? with
    | some r => if r.status = "" then "None" else r.status
    | none => "None"

/-- The item shape built by `getCommentsForPost`: note that `createdAt` is the
raw `c.created_at` value, with no `toISOString()` call. -/
def commentItemView (db : DB) (userId : String) (c : CommentRow) : CommentView :=
  { id := c.id, content := c.content,
    commentatorInfo := { userId := c.user_id, userLogin := c.user_login },
    createdAt := TimeVal.raw c.created_at,
    likesInfo := { likesCount := commentLikesCount db c.id "Like",
                   dislikesCount := commentLikesCount db c.id "Dislike",
                   myStatus := commentMyStatus db c.id userId } }

/-- `CommentRepository.getCommentsForPost`: `page = query.pageNumber || 1`,
`pageSize = query.pageSize || 10` (JavaScript `||`, so 0 falls back to the
default), offset `(page-1)*pageSize`, `pagesCount = ceil(totalCount /
pageSize)`. -/
def getCommentsForPost (db : DB) (postId : String) (q : GetCommentsQuery)
    (currentUserId : String) : Paginated CommentView :=
  let page := match q.pageNumber with
    | some n => if n = 0 then 1 else n
    | none => 1
  let pageSize := match q.pageSize with
    | some n => if n = 0 then 10 else n
    | none => 10
  let skip := (page - 1) * pageSize
  let rows := sortedCommentRows db postId q.sortBy q.sortDirection
  let totalCount := (activeCommentsFor db postId).length
  { pagesCount := cdiv totalCount pageSize, page := page, pageSize := pageSize,
    totalCount := totalCount,
    items := ((rows.drop skip).take pageSize).map (commentItemView db currentUserId) }

/-- `allowedSortFields` of `getPostsByBlogId`. -/
def allowedSortFieldsBlog : List String :=
  ["createdAt", "title", "shortDescription", "content"]

/-- Key comparison for the post listing's `ORDER BY` column. -/
def postKeyLe (field : String) (a b : PostRow) : Bool :=
  if field = "title" then a.title ≤ b.title
  else if field = "shortDescription" then a.shortDescription ≤ b.shortDescription
  else if field = "content" then a.content ≤ b.content
  else a.created_at ≤ b.created_at

/-- `sortDirection.toUpperCase()` with the destructuring default `'desc'`:
this string is handed to the query builder UNVALIDATED (the `as 'ASC'|'DESC'`
cast has no runtime effect). -/
def postsOrderDirection (sortDirection : Option String) : String :=
  toUpperString (sortDirection.getD "desc")

/-- The rows matching `post.blog_id = .. AND post.deletionStatus = 'active'`. -/
def activePostsFor (db : DB) (blogId : String) : List PostRow :=
  db.posts.filter (fun p => p.blog_id == blogId && p.deletionStatus == "active")

/-- The filtered and sorted row set of the `getPostsByBlogId` query builder
(before skip/take), for an already validated direction. -/
def sortedBlogPostRows (db : DB) (blogId : String) (sb : Option String)
    (dir : String) : List PostRow :=
  let sortBy := sb.getD "createdAt"
  let safeSortBy := if allowedSortFieldsBlog.contains sortBy then sortBy else "createdAt"
  sortLe (fun a b => if dir = "ASC" then postKeyLe safeSortBy a b else postKeyLe safeSortBy b a)
    (activePostsFor db blogId)

/-- `getUserLikeStatuses` for a single post id: the reduce keeps the last
matching row, and each stored status is passed through `normalizeLikeStatus`;
a missing entry yields `LikeStatus.None`. -/
def userLikeStatus (db : DB) (postId userId : String) : String :=
  match (db.likes.filter (matchesTriple userId postId "Post")).getLast? with
  | some r => normalizeLikeStatus r.status
  | none => "None"

/-- `myStatus` of a post item: `userId ? userLikeStatuses[post.id] ||
LikeStatus.None : LikeStatus.None` (empty string is falsy). -/
def postMyStatus (db : DB) (postId : String) (userId : Option String) : String :=
  match userId with
  | some u => if u = "" then "None" else userLikeStatus db postId u
  | none => "None"

/-- The rows returned by the single `getNewestLikes` query: all Like rows of
ALL the page's posts, ordered by `created_at DESC`, with ONE global `LIMIT 3`
applied across the whole page. -/
def topRecentPostLikes (db : DB) (postIds : List String) : List LikeRow :=
  (sortLe (fun a b => b.created_at ≤ a.created_at)
    (db.likes.filter (fun l =>
      postIds.contains l.entity_id && l.entity_type == "Post" && l.status == "Like"))).take 3

/-- The per-post list produced by the order-preserving reduce-grouping of
`getNewestLikes` followed by the `newestLikes[post.id] || []` lookup. -/
def getNewestLikes (db : DB) (postIds : List String) (postId : String) :
    List NewestLike :=
  ((topRecentPostLikes db postIds).filter (fun l => l.entity_id == postId)).map
    (fun l => { addedAt := TimeVal.iso l.created_at, userId := l.user_id,
                login := l.user_login })

/-- The item shape built by `getPostsByBlogId` (`post.likesCount || 0` is the
identity on the integer counter columns). -/
def postItemView (db : DB) (postIds : List String) (userId : Option String)
    (post : PostRow) : PostView :=
  { id := post.id, title := post.title,
    shortDescription := post.shortDescription, content := post.content,
    blogId := post.blog_id, blogName := post.blogName,
    createdAt := TimeVal.iso post.created_at,
    extendedLikesInfo := { likesCount := post.likesCount,
                           dislikesCount := post.dislikesCount,
                           myStatus := postMyStatus db post.id userId,
                           newestLikes := getNewestLikes db postIds post.id } }

/-- `PostsRepository.getPostsByBlogId`.  Destructuring defaults apply only to
missing fields.  The uppercased `sortDirection` is interpolated into the SQL
`ORDER BY`; a token other than `ASC`/`DESC` is not a valid SQL direction, so
the query fails instead of returning rows — modelled as `Except.error`. -/
def getPostsByBlogId (db : DB) (blogId : String) (q : GetPostsQuery)
    (userId : Option String) : Except String (Paginated PostView) :=
  let pageNumber := q.pageNumber.getD 1
  let pageSize := q.pageSize.getD 10
  let dir := postsOrderDirection q.sortDirection
  if dir = "ASC" ∨ dir = "DESC" then
    let rows := sortedBlogPostRows db blogId q.sortBy dir
    let totalCount := (activePostsFor db blogId).length
    let pageRows := (rows.drop ((pageNumber - 1) * pageSize)).take pageSize
    let postIds := pageRows.map (fun p => p.id)
    Except.ok { pagesCount := cdiv totalCount pageSize, page := pageNumber,
                pageSize := pageSize, totalCount := totalCount,
                items := pageRows.map (postItemView db postIds userId) }
  else Except.error "invalid ORDER BY direction"

/-- Items of one page of the post listing (empty when the query fails). -/
def postsPageItems (db : DB) (blogId : String) (q : GetPostsQuery)
    (userId : Option String) : List PostView :=
  match getPostsByBlogId db blogId q userId with
  | Except.ok env => env.items
  | Except.error _ => []

/-- One call to either reaction-update operation. -/
inductive ReactionCall where
  | post (postId userId userLogin status : String) (now : Nat)
  | comment (commentId userId userLogin status : String) (now : Nat)

def applyCall (db : DB) : ReactionCall → DB
  | ReactionCall.post p u lg s t => updateLikeForPost db p u lg s t
  | ReactionCall.comment c u lg s t => updateLikeForComment db c u lg s t

def applyCalls (db : DB) (calls : List ReactionCall) : DB :=
  calls.foldl applyCall db

/-- All stored reaction rows of one (entityId, entityType, userId) triple. -/
def tripleRows (db : DB) (userId entityId entityType : String) : List LikeRow :=
  db.likes.filter (matchesTriple userId entityId entityType)

/-- Row-set invariant for one triple: at most one row, the literal `"None"` is
never stored, and Post rows never carry an empty status (rows created by the
operations themselves always satisfy this). -/
def goodTripleState (db : DB) (userId entityId entityType : String) : Prop :=
  (tripleRows db userId entityId entityType).length ≤ 1 ∧
    ∀ r ∈ tripleRows db userId entityId entityType,
      r.status ≠ "None" ∧ (r.entity_type = "Post" → r.status ≠ "")

/-- `SELECT status FROM likes WHERE ..` for a post triple: the status of the
first matching row, if any. -/
def currentPostStatus (db : DB) (postId userId : String) : Option String :=
  ((db.likes.filter (matchesTriple userId postId "Post")).head?).map
    (fun l => l.status)

/-- Denormalized counters of the first post row with the given id. -/
def countersIn (posts : List PostRow) (postId : String) : Option (Int × Int) :=
  ((posts.filter (fun p => p.id == postId)).head?).map
    (fun p => (p.likesCount, p.dislikesCount))

/-! ### Generic list lemmas used by the verification below -/

theorem filter_not_filter_self {α : Type} (p : α → Bool) (l : List α) :
    (l.filter (fun a => !(p a))).filter p = [] := by
  rw [List.filter_filter]
  have h : ∀ a ∈ l, ¬(p a && !(p a)) = true := by
    intro a _
    cases hp : p a <;> simp [hp]
  exact List.filter_eq_nil_iff.mpr h

theorem filter_not_idem {α : Type} (p : α → Bool) (l : List α) :
    (l.filter (fun a => !(p a))).filter (fun a => !(p a)) = l.filter (fun a => !(p a)) := by
  rw [List.filter_filter]
  apply List.filter_congr
  intro a _
  cases hp : p a <;> simp [hp]

theorem filter_not_eq_self {α : Type} (p : α → Bool) (l : List α)
    (h : l.filter p = []) : l.filter (fun a => !(p a)) = l := by
  rw [List.filter_eq_self]
  intro a ha
  have := List.filter_eq_nil_iff.mp h a ha
  simpa using this

theorem filter_disjoint_pred {α : Type} (p q : α → Bool)
    (h : ∀ a, p a = true → q a = false) (l : List α) :
    (l.filter (fun a => !(q a))).filter p = l.filter p := by
  rw [List.filter_filter]
  apply List.filter_congr
  intro a _
  cases hp : p a
  · simp
  · simp [h a hp]

theorem filter_map_comm {α : Type} (p : α → Bool) (f : α → α)
    (hf : ∀ a, p (f a) = p a) (l : List α) :
    (l.map f).filter p = (l.filter p).map f := by
  induction l with
  | nil => rfl
  | cons a l ih =>
    simp only [List.map_cons, List.filter_cons, hf a]
    cases hp : p a <;> simp [ih]

theorem forall2_map_self {α β : Type} (R : α → β → Prop) (f : α → β)
    (l : List α) (h : ∀ a ∈ l, R a (f a)) : List.Forall₂ R l (l.map f) := by
  induction l with
  | nil => exact List.Forall₂.nil
  | cons a l ih =>
    exact List.Forall₂.cons (h a (by simp))
      (ih (fun b hb => h b (by simp [hb])))

theorem insertLe_perm {α : Type} (le : α → α → Bool) (a : α) (l : List α) :
    (insertLe le a l).Perm (a :: l) := by
  induction l with
  | nil => simp [insertLe]
  | cons b l ih =>
    unfold insertLe
    by_cases h : le a b = true
    · rw [if_pos h]
    · rw [if_neg h]
      exact (ih.cons b).trans (List.Perm.swap a b l)

theorem sortLe_perm {α : Type} (le : α → α → Bool) (l : List α) :
    (sortLe le l).Perm l := by
  induction l with
  | nil => exact List.Perm.refl []
  | cons a l ih =>
    exact (insertLe_perm le a (sortLe le l)).trans (ih.cons a)

theorem cdiv_zero (ps : Nat) (hps : 0 < ps) : cdiv 0 ps = 0 := by
  unfold cdiv
  exact Nat.div_eq_of_lt (by omega)

theorem cdiv_step (n ps : Nat) (hn : 0 < n) (hps : 0 < ps) :
    cdiv n ps = cdiv (n - ps) ps + 1 := by
  unfold cdiv
  rcases le_or_lt n ps with h | h
  · have h1 : n + ps - 1 = (n - 1) + ps := by omega
    have h2 : n - ps = 0 := by omega
    rw [h1, Nat.add_div_right _ hps, Nat.div_eq_of_lt (by omega), h2,
      Nat.div_eq_of_lt (by omega)]
  · have h1 : n + ps - 1 = ((n - ps) + ps - 1) + ps := by omega
    rw [h1, Nat.add_div_right _ hps]

theorem cdiv_mul_ge (t ps : Nat) (hps : 0 < ps) : t ≤ cdiv t ps * ps := by
  rcases Nat.eq_zero_or_pos t with h | h
  · subst h; omega
  · unfold cdiv
    have h1 : t + ps - 1 = (t - 1) + ps := by omega
    rw [h1, Nat.add_div_right _ hps]
    have h2 := Nat.div_add_mod (t - 1) ps
    have h3 := Nat.mod_lt (t - 1) hps
    have h4 : ((t - 1) / ps + 1) * ps = (t - 1) / ps * ps + ps := by
      rw [Nat.succ_mul]
    rw [h4]
    have h5 : ps * ((t - 1) / ps) = (t - 1) / ps * ps := Nat.mul_comm _ _
    omega

theorem cdiv_mul_lt (t ps : Nat) (hps : 0 < ps) : cdiv t ps * ps < t + ps := by
  unfold cdiv
  have h1 := Nat.div_mul_le_self (t + ps - 1) ps
  omega

theorem flatten_map_map {α β : Type} (f : α → β) (L : List (List α)) :
    (L.map (fun x => x.map f)).flatten = L.flatten.map f :=
  (List.map_flatten f L).symm

theorem chunks_flatten {α : Type} (ps : Nat) (hps : 0 < ps) :
    ∀ (n : Nat) (l : List α), l.length = n →
      ((List.range (cdiv n ps)).map (fun i => (l.drop (i * ps)).take ps)).flatten = l := by
  intro n
  induction n using Nat.strong_induction_on with
  | _ n ih =>
    intro l hl
    rcases Nat.eq_zero_or_pos n with h0 | hpos
    · subst h0
      have hnil : l = [] := List.length_eq_zero.mp hl
      subst hnil
      rw [cdiv_zero ps hps]
      rfl
    · rw [cdiv_step n ps hpos hps, List.range_succ_eq_map]
      simp only [List.map_cons, List.map_map, List.flatten_cons]
      have hcongr : ((List.range (cdiv (n - ps) ps)).map
          ((fun i => (l.drop (i * ps)).take ps) ∘ Nat.succ))
          = (List.range (cdiv (n - ps) ps)).map
            (fun i => ((l.drop ps).drop (i * ps)).take ps) := by
        apply List.map_congr_left
        intro i _
        show (l.drop (Nat.succ i * ps)).take ps = ((l.drop ps).drop (i * ps)).take ps
        rw [List.drop_drop, Nat.succ_mul, Nat.add_comm (i * ps) ps]
      rw [hcongr]
      have hlen : (l.drop ps).length = n - ps := by rw [List.length_drop, hl]
      rw [ih (n - ps) (by omega) (l.drop ps) hlen]
      simp [List.take_append_drop]

theorem normalize_cases (s : String) :
    normalizeLikeStatus s = "Like" ∨ normalizeLikeStatus s = "Dislike" ∨
      normalizeLikeStatus s = "None" := by
  unfold normalizeLikeStatus
  by_cases h1 : s = "Like"
  · simp [h1]
  · by_cases h2 : s = "Dislike" <;> simp [h1, h2]

theorem countersIn_map {posts : List PostRow} {pid : String} (f : PostRow → PostRow)
    (g : Int × Int → Int × Int) (hid : ∀ p, (f p).id = p.id)
    (hg : ∀ p : PostRow, p.id = pid →
      ((f p).likesCount, (f p).dislikesCount) = g (p.likesCount, p.dislikesCount)) :
    countersIn (posts.map f) pid = (countersIn posts pid).map g := by
  induction posts with
  | nil => rfl
  | cons p posts ih =>
    by_cases hp : p.id = pid
    · simp [countersIn, List.filter_cons, hid p, hp, hg p hp]
    · simp only [countersIn, List.map_cons, List.filter_cons, hid p]
      rw [if_neg (by simp [hp]), if_neg (by simp [hp])]
      exact ih

theorem countersIn_map_other {posts : List PostRow} {pid q : String}
    (f : PostRow → PostRow) (hid : ∀ p, (f p).id = p.id)
    (hq : q ≠ pid) (hf : ∀ p : PostRow, p.id ≠ pid → f p = p) :
    countersIn (posts.map f) q = countersIn posts q := by
  induction posts with
  | nil => rfl
  | cons p posts ih =>
    by_cases hp : p.id = q
    · have hne : p.id ≠ pid := by rw [hp]; exact hq
      simp [countersIn, List.filter_cons, hid p, hp, hf p hne]
    · simp only [countersIn, List.map_cons, List.filter_cons, hid p]
      rw [if_neg (by simp [hp]), if_neg (by simp [hp])]
      exact ih

theorem decPostCounter_id (pid cs : String) (p : PostRow) :
    (decPostCounter pid cs p).id = p.id := by
  unfold decPostCounter
  by_cases h : p.id = pid
  · rw [if_pos h]; by_cases h2 : cs = "Like" <;> simp [h2]
  · rw [if_neg h]

theorem incPostCounter_id (pid ns : String) (p : PostRow) :
    (incPostCounter pid ns p).id = p.id := by
  unfold incPostCounter
  by_cases h : p.id = pid
  · rw [if_pos h]; by_cases h2 : ns = "Like" <;> simp [h2]
  · rw [if_neg h]

theorem decPostCounter_other (pid cs : String) (p : PostRow) (h : p.id ≠ pid) :
    decPostCounter pid cs p = p := by
  unfold decPostCounter
  rw [if_neg h]

theorem incPostCounter_other (pid ns : String) (p : PostRow) (h : p.id ≠ pid) :
    incPostCounter pid ns p = p := by
  unfold incPostCounter
  rw [if_neg h]

theorem updateLikeForPost_posts_none (db : DB)
    (postId userId userLogin status : String) (t : Nat)
    (hh : (db.likes.filter (matchesTriple userId postId "Post")).head? = none) :
    (updateLikeForPost db postId userId userLogin status t).posts
      = if normalizeLikeStatus status ≠ "None" then
          db.posts.map (incPostCounter postId (normalizeLikeStatus status))
        else db.posts := by
  unfold updateLikeForPost
  rw [hh]
  by_cases hns : normalizeLikeStatus status ≠ "None" <;> simp [hns]

theorem updateLikeForPost_posts_some (db : DB)
    (postId userId userLogin status : String) (t : Nat) (row : LikeRow)
    (hh : (db.likes.filter (matchesTriple userId postId "Post")).head? = some row)
    (hne : row.status ≠ "") :
    (updateLikeForPost db postId userId userLogin status t).posts
      = if normalizeLikeStatus status ≠ "None" then
          (db.posts.map (decPostCounter postId row.status)).map
            (incPostCounter postId (normalizeLikeStatus status))
        else db.posts.map (decPostCounter postId row.status) := by
  unfold updateLikeForPost
  rw [hh]
  by_cases hns : normalizeLikeStatus status ≠ "None" <;> simp [hns, hne]

theorem updateLikeForPost_posts_blank (db : DB)
    (postId userId userLogin status : String) (t : Nat) (row : LikeRow)
    (hh : (db.likes.filter (matchesTriple userId postId "Post")).head? = some row)
    (he : row.status = "") :
    (updateLikeForPost db postId userId userLogin status t).posts
      = if normalizeLikeStatus status ≠ "None" then
          db.posts.map (incPostCounter postId (normalizeLikeStatus status))
        else db.posts := by
  unfold updateLikeForPost
  rw [hh]
  by_cases hns : normalizeLikeStatus status ≠ "None" <;> simp [hns, he]

def scenarioPost : PostRow :=
  ⟨"P1", "title", "sd", "content", "B1", "blogname", 0, 0, 0, "active"⟩

def scenarioDb0 : DB := ⟨[scenarioPost], [], []⟩

def scenarioDb1 : DB := updateLikeForPost scenarioDb0 "P1" "U1" "login1" "Like" 1

def scenarioDb2 : DB := updateLikeForPost scenarioDb1 "P1" "U1" "login1" "Dislike" 2

def scenarioDb3 : DB := updateLikeForPost scenarioDb2 "P1" "U1" "login1" "None" 3

/-- Per-post-row counter change demanded by a reaction transition `old → ns`:
the row for the reacted post gets the decrement matching `old` (when `old` is a
stored status) and the increment matching `ns` (when `ns` is not None); every
other row is untouched. -/
def counterDelta (old : Option String) (ns : String) (postId : String)
    (p p' : PostRow) : Prop :=
  (p.id = postId →
     p'.likesCount = p.likesCount
       - (if old = some "Like" then 1 else 0) + (if ns = "Like" then 1 else 0)
     ∧ p'.dislikesCount = p.dislikesCount
       - (if old = some "Dislike" then 1 else 0) + (if ns = "Dislike" then 1 else 0))
  ∧ (p.id ≠ postId → p' = p)

/-- **C1** For a post with counters (0,0) and a user with no existing
reaction, the updates Like, Dislike, None leave the counters at (1,0), (0,1)
and (0,0) respectively; in general a transition `old → new` decrements the
counter matching `old` by 1 when `old` is a stored status and increments the
counter matching `new` by 1 when the normalized `new` is not None, leaving all
other posts unchanged. -/
theorem updateLikeForPost_counter_transitions
    (db : DB) (postId userId userLogin status : String) (t : Nat)
    (hold : currentPostStatus db postId userId = none ∨
            currentPostStatus db postId userId = some "Like" ∨
            currentPostStatus db postId userId = some "Dislike") :
    List.Forall₂
      (counterDelta (currentPostStatus db postId userId)
        (normalizeLikeStatus status) postId)
      db.posts (updateLikeForPost db postId userId userLogin status t).posts
    ∧ countersIn scenarioDb1.posts "P1" = some (1, 0)
    ∧ countersIn scenarioDb2.posts "P1" = some (0, 1)
    ∧ countersIn scenarioDb3.posts "P1" = some (0, 0) := by
  refine ⟨?_, by decide, by decide, by decide⟩
  rcases hold with hcs | hcs | hcs
  · have hh : (db.likes.filter (matchesTriple userId postId "Post")).head? = none := by
      have h2 := hcs
      unfold currentPostStatus at h2
      exact Option.map_eq_none'.mp h2
    rw [updateLikeForPost_posts_none db postId userId userLogin status t hh, hcs]
    rcases normalize_cases status with hns | hns | hns <;> rw [hns]
    · rw [if_pos (by decide)]
      apply forall2_map_self
      intro p _
      constructor
      · intro hpid
        simp [incPostCounter, hpid, counterDelta]
      · intro hpid
        exact incPostCounter_other _ _ _ hpid
    · rw [if_pos (by decide)]
      apply forall2_map_self
      intro p _
      constructor
      · intro hpid
        simp [incPostCounter, hpid, counterDelta]
      · intro hpid
        exact incPostCounter_other _ _ _ hpid
    · rw [if_neg (by decide)]
      rw [List.forall₂_same]
      intro p _
      constructor
      · intro _
        simp
      · intro _
        rfl
  · obtain ⟨row, hh, hrow⟩ := Option.map_eq_some'.mp hcs
    have hne : row.status ≠ "" := by rw [hrow]; decide
    rw [updateLikeForPost_posts_some db postId userId userLogin status t row hh hne,
      hcs, hrow]
    rcases normalize_cases status with hns | hns | hns <;> rw [hns]
    · rw [if_pos (by decide), List.map_map]
      apply forall2_map_self
      intro p _
      constructor
      · intro hpid
        simp [incPostCounter, decPostCounter, hpid, Function.comp]
      · intro hpid
        simp [Function.comp, decPostCounter_other _ _ _ hpid,
          incPostCounter_other _ _ _ hpid]
    · rw [if_pos (by decide), List.map_map]
      apply forall2_map_self
      intro p _
      constructor
      · intro hpid
        simp [incPostCounter, decPostCounter, hpid, Function.comp]
      · intro hpid
        simp [Function.comp, decPostCounter_other _ _ _ hpid,
          incPostCounter_other _ _ _ hpid]
    · rw [if_neg (by decide)]
      apply forall2_map_self
      intro p _
      constructor
      · intro hpid
        simp [decPostCounter, hpid]
      · intro hpid
        exact decPostCounter_other _ _ _ hpid
  · obtain ⟨row, hh, hrow⟩ := Option.map_eq_some'.mp hcs
    have hne : row.status ≠ "" := by rw [hrow]; decide
    rw [updateLikeForPost_posts_some db postId userId userLogin status t row hh hne,
      hcs, hrow]
    rcases normalize_cases status with hns | hns | hns <;> rw [hns]
    · rw [if_pos (by decide), List.map_map]
      apply forall2_map_self
      intro p _
      constructor
      · intro hpid
        simp [incPostCounter, decPostCounter, hpid, Function.comp]
      · intro hpid
        simp [Function.comp, decPostCounter_other _ _ _ hpid,
          incPostCounter_other _ _ _ hpid]
    · rw [if_pos (by decide), List.map_map]
      apply forall2_map_self
      intro p _
      constructor
      · intro hpid
        simp [incPostCounter, decPostCounter, hpid, Function.comp]
      · intro hpid
        simp [Function.comp, decPostCounter_other _ _ _ hpid,
          incPostCounter_other _ _ _ hpid]
    · rw [if_neg (by decide)]
      apply forall2_map_self
      intro p _
      constructor
      · intro hpid
        simp [decPostCounter, hpid]
      · intro hpid
        exact decPostCounter_other _ _ _ hpid

theorem updateLikeForPost_likes_none (db : DB)
    (postId userId userLogin status : String) (t : Nat)
    (hh : (db.likes.filter (matchesTriple userId postId "Post")).head? = none) :
    (updateLikeForPost db postId userId userLogin status t).likes
      = if normalizeLikeStatus status ≠ "None" then
          db.likes ++ [⟨userId, userLogin, postId, "Post", normalizeLikeStatus status, t⟩]
        else db.likes := by
  unfold updateLikeForPost
  rw [hh]
  by_cases hns : normalizeLikeStatus status ≠ "None" <;> simp [hns]

theorem updateLikeForPost_likes_some (db : DB)
    (postId userId userLogin status : String) (t : Nat) (row : LikeRow)
    (hh : (db.likes.filter (matchesTriple userId postId "Post")).head? = some row)
    (hne : row.status ≠ "") :
    (updateLikeForPost db postId userId userLogin status t).likes
      = if normalizeLikeStatus status ≠ "None" then
          db.likes.filter (fun l => !(matchesTriple userId postId "Post" l))
            ++ [⟨userId, userLogin, postId, "Post", normalizeLikeStatus status, t⟩]
        else db.likes.filter (fun l => !(matchesTriple userId postId "Post" l)) := by
  unfold updateLikeForPost
  rw [hh]
  by_cases hns : normalizeLikeStatus status ≠ "None" <;> simp [hns, hne]

theorem updateLikeForPost_likes_blank (db : DB)
    (postId userId userLogin status : String) (t : Nat) (row : LikeRow)
    (hh : (db.likes.filter (matchesTriple userId postId "Post")).head? = some row)
    (he : row.status = "") :
    (updateLikeForPost db postId userId userLogin status t).likes
      = if normalizeLikeStatus status ≠ "None" then
          db.likes ++ [⟨userId, userLogin, postId, "Post", normalizeLikeStatus status, t⟩]
        else db.likes := by
  unfold updateLikeForPost
  rw [hh]
  by_cases hns : normalizeLikeStatus status ≠ "None" <;> simp [hns, he]

theorem matchesTriple_mk (a b c u lg e ty s : String) (t : Nat) :
    matchesTriple a b c ⟨u, lg, e, ty, s, t⟩ = true ↔ (u = a ∧ e = b ∧ ty = c) := by
  simp [matchesTriple, and_assoc]

theorem matchesTriple_inj {a b c x y z : String} {l : LikeRow}
    (h1 : matchesTriple a b c l = true) (h2 : matchesTriple x y z l = true) :
    a = x ∧ b = y ∧ c = z := by
  simp [matchesTriple] at h1 h2
  refine ⟨?_, ?_, ?_⟩ <;> simp_all

theorem matchesTriple_setStatus (a b c : String) (ns : String)
    (p : LikeRow → Bool) (r : LikeRow) :
    matchesTriple a b c (if p r then { r with status := ns } else r)
      = matchesTriple a b c r := by
  by_cases h : p r <;> simp [h, matchesTriple]

theorem matchesTriple_type {a b c : String} {l : LikeRow}
    (h : matchesTriple a b c l = true) : l.entity_type = c := by
  simp [matchesTriple] at h
  exact h.2

theorem updateLikeForPost_tripleRows_self (db : DB) (pid u lg s : String) (t : Nat)
    (hgood : ∀ r ∈ tripleRows db u pid "Post",
      r.status ≠ "None" ∧ (r.entity_type = "Post" → r.status ≠ "")) :
    tripleRows (updateLikeForPost db pid u lg s t) u pid "Post" = [] ∨
    ∃ ns, tripleRows (updateLikeForPost db pid u lg s t) u pid "Post"
        = [⟨u, lg, pid, "Post", ns, t⟩] ∧ (ns = "Like" ∨ ns = "Dislike") := by
  cases hh : (db.likes.filter (matchesTriple u pid "Post")).head? with
  | none =>
    have hnil : db.likes.filter (matchesTriple u pid "Post") = [] :=
      List.head?_eq_none_iff.mp hh
    by_cases hns : normalizeLikeStatus s ≠ "None"
    · right
      refine ⟨normalizeLikeStatus s, ?_, ?_⟩
      · unfold tripleRows
        rw [updateLikeForPost_likes_none db pid u lg s t hh, if_pos hns,
          List.filter_append, hnil]
        simp [matchesTriple]
      · rcases normalize_cases s with h | h | h
        · exact Or.inl h
        · exact Or.inr h
        · exact absurd h hns
    · left
      unfold tripleRows
      rw [updateLikeForPost_likes_none db pid u lg s t hh, if_neg hns]
      exact hnil
  | some row =>
    have hrow_mem : row ∈ db.likes.filter (matchesTriple u pid "Post") :=
      List.mem_of_mem_head? (Option.mem_def.mpr hh)
    have hP : matchesTriple u pid "Post" row = true :=
      (List.mem_filter.mp hrow_mem).2
    have hne : row.status ≠ "" := (hgood row hrow_mem).2 (matchesTriple_type hP)
    by_cases hns : normalizeLikeStatus s ≠ "None"
    · right
      refine ⟨normalizeLikeStatus s, ?_, ?_⟩
      · unfold tripleRows
        rw [updateLikeForPost_likes_some db pid u lg s t row hh hne, if_pos hns,
          List.filter_append, filter_not_filter_self]
        simp [matchesTriple]
      · rcases normalize_cases s with h | h | h
        · exact Or.inl h
        · exact Or.inr h
        · exact absurd h hns
    · left
      unfold tripleRows
      rw [updateLikeForPost_likes_some db pid u lg s t row hh hne, if_neg hns]
      exact filter_not_filter_self _ _

theorem updateLikeForPost_tripleRows_other (db : DB) (pid u lg s : String) (t : Nat)
    (uid eid ety : String) (hdiff : ¬(u = uid ∧ pid = eid ∧ ("Post" : String) = ety)) :
    tripleRows (updateLikeForPost db pid u lg s t) uid eid ety
      = tripleRows db uid eid ety := by
  have hdisj : ∀ l : LikeRow, matchesTriple uid eid ety l = true →
      matchesTriple u pid "Post" l = false := by
    intro l hl
    by_contra hc
    rw [Bool.not_eq_false] at hc
    exact hdiff (matchesTriple_inj hc hl)
  have hnew : ∀ ns, matchesTriple uid eid ety ⟨u, lg, pid, "Post", ns, t⟩ = false := by
    intro ns
    by_contra hc
    rw [Bool.not_eq_false] at hc
    rw [matchesTriple_mk] at hc
    exact hdiff hc
  cases hh : (db.likes.filter (matchesTriple u pid "Post")).head? with
  | none =>
    by_cases hns : normalizeLikeStatus s ≠ "None"
    · unfold tripleRows
      rw [updateLikeForPost_likes_none db pid u lg s t hh, if_pos hns,
        List.filter_append]
      simp [hnew]
    · unfold tripleRows
      rw [updateLikeForPost_likes_none db pid u lg s t hh, if_neg hns]
  | some row =>
    by_cases hb : row.status = ""
    · by_cases hns : normalizeLikeStatus s ≠ "None"
      · unfold tripleRows
        rw [updateLikeForPost_likes_blank db pid u lg s t row hh hb, if_pos hns,
          List.filter_append]
        simp [hnew]
      · unfold tripleRows
        rw [updateLikeForPost_likes_blank db pid u lg s t row hh hb, if_neg hns]
    · by_cases hns : normalizeLikeStatus s ≠ "None"
      · unfold tripleRows
        rw [updateLikeForPost_likes_some db pid u lg s t row hh hb, if_pos hns,
          List.filter_append, filter_disjoint_pred _ _ hdisj]
        simp [hnew]
      · unfold tripleRows
        rw [updateLikeForPost_likes_some db pid u lg s t row hh hb, if_neg hns]
        exact filter_disjoint_pred _ _ hdisj _

theorem updateLikeForComment_likes_delete (db : DB) (cid u lg s : String) (t : Nat)
    (hns : capitalizeStatus s = "None") :
    (updateLikeForComment db cid u lg s t).likes
      = db.likes.filter (fun l => !(matchesTriple u cid "Comment" l)) := by
  unfold updateLikeForComment
  simp [hns]

theorem updateLikeForComment_likes_update (db : DB) (cid u lg s : String) (t : Nat)
    (hns : capitalizeStatus s ≠ "None")
    (hex : (db.likes.filter (matchesTriple u cid "Comment")).length > 0) :
    (updateLikeForComment db cid u lg s t).likes
      = db.likes.map (fun l => if matchesTriple u cid "Comment" l then
          { l with status := capitalizeStatus s } else l) := by
  unfold updateLikeForComment
  simp [hns, hex]

theorem updateLikeForComment_likes_insert (db : DB) (cid u lg s : String) (t : Nat)
    (hns : capitalizeStatus s ≠ "None")
    (hex : ¬ (db.likes.filter (matchesTriple u cid "Comment")).length > 0) :
    (updateLikeForComment db cid u lg s t).likes
      = db.likes ++ [⟨u, lg, cid, "Comment", capitalizeStatus s, t⟩] := by
  unfold updateLikeForComment
  simp [hns, hex]

theorem updateLikeForComment_tripleRows_self (db : DB) (cid u lg s : String) (t : Nat)
    (hlen : (tripleRows db u cid "Comment").length ≤ 1) :
    tripleRows (updateLikeForComment db cid u lg s t) u cid "Comment" = [] ∨
    ∃ r : LikeRow, tripleRows (updateLikeForComment db cid u lg s t) u cid "Comment" = [r]
      ∧ r.status = capitalizeStatus s ∧ r.entity_type = "Comment"
      ∧ capitalizeStatus s ≠ "None" := by
  by_cases hns : capitalizeStatus s = "None"
  · left
    unfold tripleRows
    rw [updateLikeForComment_likes_delete db cid u lg s t hns]
    exact filter_not_filter_self _ _
  · by_cases hex : (db.likes.filter (matchesTriple u cid "Comment")).length > 0
    · right
      have hcomm : (db.likes.map (fun l => if matchesTriple u cid "Comment" l then
            { l with status := capitalizeStatus s } else l)).filter
              (matchesTriple u cid "Comment")
          = (db.likes.filter (matchesTriple u cid "Comment")).map
              (fun l => if matchesTriple u cid "Comment" l then
                { l with status := capitalizeStatus s } else l) :=
        filter_map_comm _ _ (fun l => matchesTriple_setStatus _ _ _ _ _ l) _
      have hone : ∃ r0, db.likes.filter (matchesTriple u cid "Comment") = [r0] := by
        unfold tripleRows at hlen
        cases hc : db.likes.filter (matchesTriple u cid "Comment") with
        | nil => rw [hc] at hex; simp at hex
        | cons a l =>
          rw [hc] at hlen
          cases l with
          | nil => exact ⟨a, rfl⟩
          | cons b l2 => simp at hlen
      obtain ⟨r0, hr0⟩ := hone
      have hP : matchesTriple u cid "Comment" r0 = true := by
        have : r0 ∈ db.likes.filter (matchesTriple u cid "Comment") := by
          rw [hr0]; simp
        exact (List.mem_filter.mp this).2
      refine ⟨{ r0 with status := capitalizeStatus s }, ?_, rfl, ?_, hns⟩
      · unfold tripleRows
        rw [updateLikeForComment_likes_update db cid u lg s t hns hex, hcomm, hr0]
        simp [hP]
      · show r0.entity_type = "Comment"
        exact matchesTriple_type hP
    · right
      refine ⟨⟨u, lg, cid, "Comment", capitalizeStatus s, t⟩, ?_, rfl, rfl, hns⟩
      unfold tripleRows
      rw [updateLikeForComment_likes_insert db cid u lg s t hns hex,
        List.filter_append]
      have hnil : db.likes.filter (matchesTriple u cid "Comment") = [] := by
        cases hc : db.likes.filter (matchesTriple u cid "Comment") with
        | nil => rfl
        | cons a l => rw [hc] at hex; simp at hex
      rw [hnil]
      simp [matchesTriple]

theorem updateLikeForComment_tripleRows_other (db : DB) (cid u lg s : String) (t : Nat)
    (uid eid ety : String)
    (hdiff : ¬(u = uid ∧ cid = eid ∧ ("Comment" : String) = ety)) :
    tripleRows (updateLikeForComment db cid u lg s t) uid eid ety
      = tripleRows db uid eid ety := by
  have hdisj : ∀ l : LikeRow, matchesTriple uid eid ety l = true →
      matchesTriple u cid "Comment" l = false := by
    intro l hl
    by_contra hc
    rw [Bool.not_eq_false] at hc
    exact hdiff (matchesTriple_inj hc hl)
  by_cases hns : capitalizeStatus s = "None"
  · unfold tripleRows
    rw [updateLikeForComment_likes_delete db cid u lg s t hns]
    exact filter_disjoint_pred _ _ hdisj _
  · by_cases hex : (db.likes.filter (matchesTriple u cid "Comment")).length > 0
    · unfold tripleRows
      rw [updateLikeForComment_likes_update db cid u lg s t hns hex,
        filter_map_comm _ _ (fun l => matchesTriple_setStatus _ _ _ _ _ l) _]
      have hcong : ∀ a ∈ List.filter (matchesTriple uid eid ety) db.likes,
          (fun l => if matchesTriple u cid "Comment" l then
            { l with status := capitalizeStatus s } else l) a = id a := by
        intro a ha
        have hQ : matchesTriple uid eid ety a = true := (List.mem_filter.mp ha).2
        simp [hdisj a hQ]
      rw [List.map_congr_left hcong, List.map_id]
    · unfold tripleRows
      rw [updateLikeForComment_likes_insert db cid u lg s t hns hex,
        List.filter_append]
      have hnew : matchesTriple uid eid ety ⟨u, lg, cid, "Comment", capitalizeStatus s, t⟩ = false := by
        by_contra hc
        rw [Bool.not_eq_false] at hc
        rw [matchesTriple_mk] at hc
        exact hdiff hc
      simp [hnew]

theorem applyCall_good (db : DB) (c : ReactionCall) (uid eid ety : String)
    (h : goodTripleState db uid eid ety) :
    goodTripleState (applyCall db c) uid eid ety := by
  cases c with
  | post pid u lg s t =>
    simp only [applyCall]
    by_cases hsame : u = uid ∧ pid = eid ∧ ("Post" : String) = ety
    · obtain ⟨h1, h2, h3⟩ := hsame
      subst h1; subst h2; subst h3
      rcases updateLikeForPost_tripleRows_self db pid u lg s t h.2 with
        hnil | ⟨ns, heq, hns⟩
      · constructor
        · show (tripleRows _ u pid "Post").length ≤ 1
          rw [hnil]; simp
        · show ∀ r ∈ tripleRows _ u pid "Post", _
          rw [hnil]; simp
      · constructor
        · show (tripleRows _ u pid "Post").length ≤ 1
          rw [heq]; simp
        · show ∀ r ∈ tripleRows _ u pid "Post", _
          rw [heq]
          intro r hr
          simp at hr
          subst hr
          rcases hns with h' | h'
          · rw [h']
            refine ⟨?_, fun _ => ?_⟩
            · show ("Like" : String) ≠ "None"
              decide
            · show ("Like" : String) ≠ ""
              decide
          · rw [h']
            refine ⟨?_, fun _ => ?_⟩
            · show ("Dislike" : String) ≠ "None"
              decide
            · show ("Dislike" : String) ≠ ""
              decide
    · unfold goodTripleState
      rw [updateLikeForPost_tripleRows_other db pid u lg s t uid eid ety hsame]
      exact h
  | comment cid u lg s t =>
    simp only [applyCall]
    by_cases hsame : u = uid ∧ cid = eid ∧ ("Comment" : String) = ety
    · obtain ⟨h1, h2, h3⟩ := hsame
      subst h1; subst h2; subst h3
      rcases updateLikeForComment_tripleRows_self db cid u lg s t h.1 with
        hnil | ⟨r, heq, hst, hty, hne⟩
      · constructor
        · show (tripleRows _ u cid "Comment").length ≤ 1
          rw [hnil]; simp
        · show ∀ r ∈ tripleRows _ u cid "Comment", _
          rw [hnil]; simp
      · constructor
        · show (tripleRows _ u cid "Comment").length ≤ 1
          rw [heq]; simp
        · show ∀ r2 ∈ tripleRows _ u cid "Comment", _
          rw [heq]
          intro r2 hr2
          simp at hr2
          subst hr2
          refine ⟨?_, ?_⟩
          · rw [hst]; exact hne
          · intro hty2
            rw [hty] at hty2
            exact absurd hty2 (by decide)
    · unfold goodTripleState
      rw [updateLikeForComment_tripleRows_other db cid u lg s t uid eid ety hsame]
      exact h

theorem applyCalls_good (db : DB) (calls : List ReactionCall) (uid eid ety : String)
    (h : goodTripleState db uid eid ety) :
    goodTripleState (applyCalls db calls) uid eid ety := by
  induction calls generalizing db with
  | nil => exact h
  | cons c cs ih => exact ih (applyCall db c) (applyCall_good db c uid eid ety h)

/-- **C2** (amended) For every (entityId, entityType, userId) triple, after any
sequential sequence of reaction-update calls starting from a state with at
most one reaction row for that triple — provided any pre-existing row for the
triple has a status other than the literal `"None"` and, for Post rows, a
non-empty status (rows created by the operations themselves always satisfy
this) — at most one reaction row exists for that triple, and the literal
status `"None"` is never stored in any of its rows. -/
theorem reaction_rows_unique (uid eid ety : String) (db : DB)
    (calls : List ReactionCall) (h0 : goodTripleState db uid eid ety) :
    (tripleRows (applyCalls db calls) uid eid ety).length ≤ 1 ∧
    ∀ r ∈ tripleRows (applyCalls db calls) uid eid ety, r.status ≠ "None" :=
  ⟨(applyCalls_good db calls uid eid ety h0).1,
   fun r hr => ((applyCalls_good db calls uid eid ety h0).2 r hr).1⟩

def blankStatusRow : LikeRow := ⟨"U1", "login1", "P1", "Post", "", 0⟩

def blankStatusDb : DB := ⟨[scenarioPost], [], [blankStatusRow]⟩

/-- **C2** counterexample: from a state holding exactly one reaction row for
the triple (P1, Post, U1) — a row whose stored status is the empty string, so
JavaScript `if (currentStatus)` sees it as falsy — a single Like update skips
the delete branch and inserts a second row, leaving two rows for the triple. -/
theorem reaction_rows_unique_counterexample :
    (tripleRows blankStatusDb "U1" "P1" "Post").length = 1 ∧
    (tripleRows (applyCalls blankStatusDb
        [ReactionCall.post "P1" "U1" "login1" "Like" 1]) "U1" "P1" "Post").length = 2 := by
  decide

theorem reaction_rows_unique_witness :
    goodTripleState scenarioDb0 "U1" "P1" "Post" ∧
    (tripleRows (applyCalls scenarioDb0
        [ReactionCall.post "P1" "U1" "login1" "Like" 1,
         ReactionCall.comment "C1" "U1" "login1" "dislike" 2,
         ReactionCall.post "P1" "U1" "login1" "None" 3]) "U1" "P1" "Post").length ≤ 1 :=
  ⟨⟨by decide, by decide⟩,
   (reaction_rows_unique "U1" "P1" "Post" scenarioDb0
     [ReactionCall.post "P1" "U1" "login1" "Like" 1,
      ReactionCall.comment "C1" "U1" "login1" "dislike" 2,
      ReactionCall.post "P1" "U1" "login1" "None" 3] ⟨by decide, by decide⟩).1⟩

theorem updateLikeForPost_counter_transitions_witness :
    (currentPostStatus scenarioDb0 "P1" "U1" = none ∨
     currentPostStatus scenarioDb0 "P1" "U1" = some "Like" ∨
     currentPostStatus scenarioDb0 "P1" "U1" = some "Dislike")
    ∧ List.Forall₂
        (counterDelta (currentPostStatus scenarioDb0 "P1" "U1")
          (normalizeLikeStatus "Like") "P1")
        scenarioDb0.posts
        (updateLikeForPost scenarioDb0 "P1" "U1" "login1" "Like" 1).posts :=
  ⟨Or.inl (by decide),
   (updateLikeForPost_counter_transitions scenarioDb0 "P1" "U1" "login1" "Like" 1
     (Or.inl (by decide))).1⟩

theorem DB_ext {a b : DB} (hp : a.posts = b.posts) (hc : a.comments = b.comments)
    (hl : a.likes = b.likes) : a = b := by
  cases a
  cases b
  simp only [DB.mk.injEq]
  exact ⟨hp, hc, hl⟩

theorem updateLikeForPost_comments (db : DB) (pid u lg s : String) (t : Nat) :
    (updateLikeForPost db pid u lg s t).comments = db.comments := by
  unfold updateLikeForPost
  cases (db.likes.filter (matchesTriple u pid "Post")).head? with
  | none => by_cases hns : normalizeLikeStatus s ≠ "None" <;> simp [hns]
  | some row =>
    by_cases hb : row.status = "" <;>
      by_cases hns : normalizeLikeStatus s ≠ "None" <;> simp [hns, hb]

theorem updateLikeForComment_posts (db : DB) (cid u lg s : String) (t : Nat) :
    (updateLikeForComment db cid u lg s t).posts = db.posts := by
  unfold updateLikeForComment
  by_cases hns : capitalizeStatus s = "None"
  · simp [hns]
  · by_cases hex : (db.likes.filter (matchesTriple u cid "Comment")).length > 0 <;>
      simp [hns, hex]

theorem updateLikeForComment_comments (db : DB) (cid u lg s : String) (t : Nat) :
    (updateLikeForComment db cid u lg s t).comments = db.comments := by
  unfold updateLikeForComment
  by_cases hns : capitalizeStatus s = "None"
  · simp [hns]
  · by_cases hex : (db.likes.filter (matchesTriple u cid "Comment")).length > 0 <;>
      simp [hns, hex]

theorem setStatus_pointwise_idem (u cid ns : String) (l : LikeRow) :
    (fun l => if matchesTriple u cid "Comment" l then { l with status := ns } else l)
      ((fun l => if matchesTriple u cid "Comment" l then { l with status := ns } else l) l)
    = (fun l => if matchesTriple u cid "Comment" l then { l with status := ns } else l) l := by
  by_cases h : matchesTriple u cid "Comment" l = true
  · simp only [h, if_true, if_pos]
    have h2 : matchesTriple u cid "Comment" ({ l with status := ns }) = true := by
      simpa [matchesTriple] using h
    simp [h2]
  · simp only [Bool.not_eq_true] at h
    simp [h]

theorem inc_dec_inc (pid ns : String) (p : PostRow) :
    incPostCounter pid ns (decPostCounter pid ns (incPostCounter pid ns p))
      = incPostCounter pid ns p := by
  by_cases hid : p.id = pid
  · by_cases hL : ns = "Like" <;> simp [incPostCounter, decPostCounter, hid, hL]
  · simp [incPostCounter, decPostCounter, hid]

theorem ns_ne_blank {s : String} (hns : ¬ normalizeLikeStatus s = "None") :
    normalizeLikeStatus s ≠ "" := by
  rcases normalize_cases s with h | h | h
  · rw [h]; decide
  · rw [h]; decide
  · exact absurd h hns

theorem updateLikeForComment_idem (db : DB) (cid u lg s : String) (t1 t2 : Nat) :
    updateLikeForComment (updateLikeForComment db cid u lg s t1) cid u lg s t2
      = updateLikeForComment db cid u lg s t1 := by
  apply DB_ext
  · rw [updateLikeForComment_posts, updateLikeForComment_posts]
  · rw [updateLikeForComment_comments, updateLikeForComment_comments]
  · by_cases hns : capitalizeStatus s = "None"
    · rw [updateLikeForComment_likes_delete (updateLikeForComment db cid u lg s t1)
          cid u lg s t2 hns,
        updateLikeForComment_likes_delete db cid u lg s t1 hns,
        filter_not_idem]
    · by_cases hex : (db.likes.filter (matchesTriple u cid "Comment")).length > 0
      · have h1 := updateLikeForComment_likes_update db cid u lg s t1 hns hex
        have hex2 : ((updateLikeForComment db cid u lg s t1).likes.filter
            (matchesTriple u cid "Comment")).length > 0 := by
          rw [h1, filter_map_comm _ _
            (fun l => matchesTriple_setStatus _ _ _ _ _ l), List.length_map]
          exact hex
        rw [updateLikeForComment_likes_update (updateLikeForComment db cid u lg s t1)
            cid u lg s t2 hns hex2, h1, List.map_map]
        exact List.map_congr_left
          (fun a _ => setStatus_pointwise_idem u cid (capitalizeStatus s) a)
      · have hnil : db.likes.filter (matchesTriple u cid "Comment") = [] := by
          cases hc : db.likes.filter (matchesTriple u cid "Comment") with
          | nil => rfl
          | cons a l => rw [hc] at hex; simp at hex
        have h1 := updateLikeForComment_likes_insert db cid u lg s t1 hns hex
        have hex2 : ((updateLikeForComment db cid u lg s t1).likes.filter
            (matchesTriple u cid "Comment")).length > 0 := by
          rw [h1, List.filter_append, hnil]
          simp [matchesTriple]
        rw [updateLikeForComment_likes_update (updateLikeForComment db cid u lg s t1)
            cid u lg s t2 hns hex2, h1, List.map_append]
        congr 1
        · have hid : ∀ a ∈ db.likes,
              (fun l => if matchesTriple u cid "Comment" l then
                { l with status := capitalizeStatus s } else l) a = id a := by
            intro a ha
            have := List.filter_eq_nil_iff.mp hnil a ha
            simp at this
            simp [this]
          rw [List.map_congr_left hid, List.map_id]
        · simp [matchesTriple]

theorem updateLikeForPost_absorb (db : DB) (pid u lg s : String) (t1 t2 : Nat)
    (hgood : ∀ r ∈ db.likes.filter (matchesTriple u pid "Post"), r.status ≠ "") :
    updateLikeForPost (updateLikeForPost db pid u lg s t1) pid u lg s t2
      = updateLikeForPost db pid u lg s t2 := by
  by_cases hns : normalizeLikeStatus s = "None"
  · cases hh : (db.likes.filter (matchesTriple u pid "Post")).head? with
    | none =>
      have hinner : updateLikeForPost db pid u lg s t1 = db := by
        apply DB_ext
        · rw [updateLikeForPost_posts_none db pid u lg s t1 hh, if_neg (by simp [hns])]
        · exact updateLikeForPost_comments db pid u lg s t1
        · rw [updateLikeForPost_likes_none db pid u lg s t1 hh, if_neg (by simp [hns])]
      rw [hinner]
    | some row =>
      have hrow_mem : row ∈ db.likes.filter (matchesTriple u pid "Post") :=
        List.mem_of_mem_head? (Option.mem_def.mpr hh)
      have hne : row.status ≠ "" := hgood row hrow_mem
      have hlik : (updateLikeForPost db pid u lg s t1).likes
          = db.likes.filter (fun l => !(matchesTriple u pid "Post" l)) := by
        rw [updateLikeForPost_likes_some db pid u lg s t1 row hh hne,
          if_neg (by simp [hns])]
      have hpos : (updateLikeForPost db pid u lg s t1).posts
          = db.posts.map (decPostCounter pid row.status) := by
        rw [updateLikeForPost_posts_some db pid u lg s t1 row hh hne,
          if_neg (by simp [hns])]
      have hh2 : ((updateLikeForPost db pid u lg s t1).likes.filter
          (matchesTriple u pid "Post")).head? = none := by
        rw [hlik, filter_not_filter_self]
        rfl
      apply DB_ext
      · rw [updateLikeForPost_posts_none _ pid u lg s t2 hh2,
          if_neg (by simp [hns]), hpos,
          updateLikeForPost_posts_some db pid u lg s t2 row hh hne,
          if_neg (by simp [hns])]
      · rw [updateLikeForPost_comments, updateLikeForPost_comments,
          updateLikeForPost_comments]
      · rw [updateLikeForPost_likes_none _ pid u lg s t2 hh2,
          if_neg (by simp [hns]), hlik,
          updateLikeForPost_likes_some db pid u lg s t2 row hh hne,
          if_neg (by simp [hns])]
  · have hblank : normalizeLikeStatus s ≠ "" := ns_ne_blank hns
    cases hh : (db.likes.filter (matchesTriple u pid "Post")).head? with
    | none =>
      have hnil := List.head?_eq_none_iff.mp hh
      have hlik : (updateLikeForPost db pid u lg s t1).likes
          = db.likes ++ [⟨u, lg, pid, "Post", normalizeLikeStatus s, t1⟩] := by
        rw [updateLikeForPost_likes_none db pid u lg s t1 hh, if_pos hns]
      have hpos : (updateLikeForPost db pid u lg s t1).posts
          = db.posts.map (incPostCounter pid (normalizeLikeStatus s)) := by
        rw [updateLikeForPost_posts_none db pid u lg s t1 hh, if_pos hns]
      have hh2 : ((updateLikeForPost db pid u lg s t1).likes.filter
          (matchesTriple u pid "Post")).head?
          = some ⟨u, lg, pid, "Post", normalizeLikeStatus s, t1⟩ := by
        rw [hlik, List.filter_append, hnil]
        simp [matchesTriple]
      apply DB_ext
      · rw [updateLikeForPost_posts_some _ pid u lg s t2 _ hh2 hblank,
          if_pos hns, hpos,
          updateLikeForPost_posts_none db pid u lg s t2 hh, if_pos hns]
        simp only [List.map_map]
        apply List.map_congr_left
        intro p _
        exact inc_dec_inc pid (normalizeLikeStatus s) p
      · rw [updateLikeForPost_comments, updateLikeForPost_comments,
          updateLikeForPost_comments]
      · rw [updateLikeForPost_likes_some _ pid u lg s t2 _ hh2 hblank,
          if_pos hns, hlik,
          updateLikeForPost_likes_none db pid u lg s t2 hh, if_pos hns,
          List.filter_append, filter_not_eq_self _ _ hnil]
        simp [matchesTriple]
    | some row =>
      have hrow_mem : row ∈ db.likes.filter (matchesTriple u pid "Post") :=
        List.mem_of_mem_head? (Option.mem_def.mpr hh)
      have hne : row.status ≠ "" := hgood row hrow_mem
      have hlik : (updateLikeForPost db pid u lg s t1).likes
          = db.likes.filter (fun l => !(matchesTriple u pid "Post" l))
            ++ [⟨u, lg, pid, "Post", normalizeLikeStatus s, t1⟩] := by
        rw [updateLikeForPost_likes_some db pid u lg s t1 row hh hne, if_pos hns]
      have hpos : (updateLikeForPost db pid u lg s t1).posts
          = (db.posts.map (decPostCounter pid row.status)).map
              (incPostCounter pid (normalizeLikeStatus s)) := by
        rw [updateLikeForPost_posts_some db pid u lg s t1 row hh hne, if_pos hns]
      have hh2 : ((updateLikeForPost db pid u lg s t1).likes.filter
          (matchesTriple u pid "Post")).head?
          = some ⟨u, lg, pid, "Post", normalizeLikeStatus s, t1⟩ := by
        rw [hlik, List.filter_append, filter_not_filter_self]
        simp [matchesTriple]
      apply DB_ext
      · rw [updateLikeForPost_posts_some _ pid u lg s t2 _ hh2 hblank,
          if_pos hns, hpos,
          updateLikeForPost_posts_some db pid u lg s t2 row hh hne, if_pos hns]
        simp only [List.map_map]
        apply List.map_congr_left
        intro p _
        exact inc_dec_inc pid (normalizeLikeStatus s) (decPostCounter pid row.status p)
      · rw [updateLikeForPost_comments, updateLikeForPost_comments,
          updateLikeForPost_comments]
      · rw [updateLikeForPost_likes_some _ pid u lg s t2 _ hh2 hblank,
          if_pos hns, hlik,
          updateLikeForPost_likes_some db pid u lg s t2 row hh hne, if_pos hns,
          List.filter_append, filter_not_idem]
        simp [matchesTriple]

/-- **C3** (amended) Idempotence of reaction updates: for comments, calling
`updateLikeForComment` twice with the same status yields exactly the state of
a single call (creation timestamps are preserved by its in-place UPDATE).  For
posts, provided every stored reaction row of the triple has a non-empty
status, a repeated `updateLikeForPost` call is absorbed into a single call at
the SECOND call's time: counters and row uniqueness agree with a single call,
but the reaction row's `created_at` is refreshed to the latest call. -/
theorem reaction_update_idempotence :
    (∀ (db : DB) (cid u lg s : String) (t1 t2 : Nat),
       updateLikeForComment (updateLikeForComment db cid u lg s t1) cid u lg s t2
         = updateLikeForComment db cid u lg s t1)
    ∧ (∀ (db : DB) (pid u lg s : String) (t1 t2 : Nat),
       (∀ r ∈ db.likes.filter (matchesTriple u pid "Post"), r.status ≠ "") →
       updateLikeForPost (updateLikeForPost db pid u lg s t1) pid u lg s t2
         = updateLikeForPost db pid u lg s t2) :=
  ⟨updateLikeForComment_idem, updateLikeForPost_absorb⟩

/-- **C3** counterexample: repeating a post Like deletes and re-inserts the
reaction row with a fresh `NOW()` timestamp, so the state after two Like calls
(at times 1 and 2) differs from the state after one call: the stored
`created_at` changes, contradicting idempotence of the observable state
including creation timestamps. -/
theorem reaction_update_idempotence_counterexample :
    updateLikeForPost (updateLikeForPost scenarioDb0 "P1" "U1" "login1" "Like" 1)
        "P1" "U1" "login1" "Like" 2
      ≠ updateLikeForPost scenarioDb0 "P1" "U1" "login1" "Like" 1 := by
  decide

theorem reaction_update_idempotence_witness :
    (∀ r ∈ scenarioDb0.likes.filter (matchesTriple "U1" "P1" "Post"), r.status ≠ "")
    ∧ updateLikeForPost (updateLikeForPost scenarioDb0 "P1" "U1" "login1" "Like" 1)
        "P1" "U1" "login1" "Like" 2
      = updateLikeForPost scenarioDb0 "P1" "U1" "login1" "Like" 2 :=
  ⟨by decide,
   reaction_update_idempotence.2 scenarioDb0 "P1" "U1" "login1" "Like" 1 2 (by decide)⟩

/-- **C4** (amended) Status canonicalization differs between the two
operations: the COMMENT operation canonicalizes case-insensitively — any
spelling whose capitalization (first letter upper, rest lower) is `Like`,
`Dislike` or `None` produces exactly the state of the canonical spelling —
while the POST operation recognizes only the exact spellings `Like` and
`Dislike`; every other string (including lowercase or mixed-case spellings)
is normalized to `None`, so the post operation treats e.g. `like` as a
None-update, not as a Like. -/
theorem status_canonicalization :
    (∀ (db : DB) (cid u lg : String) (t : Nat) (s X : String),
       (X = "Like" ∨ X = "Dislike" ∨ X = "None") → capitalizeStatus s = X →
       updateLikeForComment db cid u lg s t = updateLikeForComment db cid u lg X t)
    ∧ (∀ s : String, s ≠ "Like" → s ≠ "Dislike" → normalizeLikeStatus s = "None")
    ∧ (∀ (db : DB) (pid u lg : String) (t : Nat) (s : String),
       normalizeLikeStatus s = "None" →
       updateLikeForPost db pid u lg s t = updateLikeForPost db pid u lg "None" t) := by
  refine ⟨?_, ?_, ?_⟩
  · intro db cid u lg t s X hX hcap
    have hXfix : capitalizeStatus X = X := by
      rcases hX with h | h | h <;> subst h <;> decide
    unfold updateLikeForComment
    rw [hcap, hXfix]
  · intro s h1 h2
    unfold normalizeLikeStatus
    rw [if_neg h1, if_neg h2]
  · intro db pid u lg t s h
    have hNone : normalizeLikeStatus "None" = "None" := by decide
    unfold updateLikeForPost
    rw [h, hNone]

/-- **C4** counterexample: the post operation does not canonicalize the
lowercase spelling `like` — on an empty reaction state it performs a
None-update (no row, counters untouched) while the canonical spelling `Like`
inserts a row and increments the counter, so the two resulting states
differ. -/
theorem status_canonicalization_counterexample :
    updateLikeForPost scenarioDb0 "P1" "U1" "login1" "like" 1
      ≠ updateLikeForPost scenarioDb0 "P1" "U1" "login1" "Like" 1 := by
  decide

theorem status_canonicalization_witness :
    capitalizeStatus "dIsLiKe" = "Dislike"
    ∧ updateLikeForComment scenarioDb0 "C1" "U1" "login1" "dIsLiKe" 1
        = updateLikeForComment scenarioDb0 "C1" "U1" "login1" "Dislike" 1
    ∧ normalizeLikeStatus "DISLIKE" = "None"
    ∧ updateLikeForPost scenarioDb0 "P1" "U1" "login1" "DISLIKE" 1
        = updateLikeForPost scenarioDb0 "P1" "U1" "login1" "None" 1 :=
  ⟨by decide,
   status_canonicalization.1 scenarioDb0 "C1" "U1" "login1" 1 "dIsLiKe" "Dislike"
     (Or.inr (Or.inl rfl)) (by decide),
   status_canonicalization.2.1 "DISLIKE" (by decide) (by decide),
   status_canonicalization.2.2 scenarioDb0 "P1" "U1" "login1" 1 "DISLIKE" (by decide)⟩

def postA : PostRow := ⟨"A", "ta", "sa", "ca", "G", "blogG", 3, 0, 2, "active"⟩

def postB : PostRow := ⟨"B", "tb", "sb", "cb", "G", "blogG", 2, 0, 1, "active"⟩

def pageDb : DB :=
  ⟨[postA, postB], [],
   [⟨"u1", "l1", "A", "Post", "Like", 10⟩,
    ⟨"u2", "l2", "A", "Post", "Like", 9⟩,
    ⟨"u3", "l3", "A", "Post", "Like", 8⟩,
    ⟨"u4", "l4", "B", "Post", "Like", 5⟩,
    ⟨"u5", "l5", "B", "Post", "Like", 4⟩]⟩

/-- **C5** The batch `getNewestLikes` query applies one global `LIMIT 3`
across ALL posts of the page instead of a per-post limit: in a page with post
A (3 recent likes) and post B (2 older likes), the three globally newest like
rows are all A's, so B's `newestLikes` comes back empty even though B has two
Like reactions — the listing does not return B's own up-to-3 most recent
likers (the single-post path applies `LIMIT 3` per post, so this contradicts
the code's own per-post intent). -/
theorem newestLikes_global_limit_bug :
    (getPostsByBlogId pageDb "G" ⟨none, none, none, none⟩ none).toOption.map
        (fun env => env.items.map
          (fun i => (i.id, i.extendedLikesInfo.newestLikes.length)))
      = some [("A", 3), ("B", 0)]
    ∧ (pageDb.likes.filter (fun l =>
        l.entity_id == "B" && l.entity_type == "Post" && l.status == "Like")).length
      = 2 := by
  decide

theorem flatten_map_slices {α β : Type} (g : α → β) (n ps : Nat) (l : List α) :
    ((List.range n).map (fun i => ((l.drop (i * ps)).take ps).map g)).flatten
      = (((List.range n).map (fun i => (l.drop (i * ps)).take ps)).flatten).map g := by
  rw [List.map_flatten, List.map_map]
  rfl

theorem getCommentsForPost_items (db : DB) (postId : String) (pg ps : Nat)
    (sb sd : Option String) (uid : String) (hpg : ¬ pg = 0) (hps : ¬ ps = 0) :
    (getCommentsForPost db postId ⟨some pg, some ps, sb, sd⟩ uid).items
      = (((sortedCommentRows db postId sb sd).drop ((pg - 1) * ps)).take ps).map
          (commentItemView db uid) := by
  simp [getCommentsForPost, hpg, hps]

theorem getCommentsForPost_counts (db : DB) (postId : String) (pg ps : Nat)
    (sb sd : Option String) (uid : String) (hpg : ¬ pg = 0) (hps : ¬ ps = 0) :
    (getCommentsForPost db postId ⟨some pg, some ps, sb, sd⟩ uid).totalCount
        = (activeCommentsFor db postId).length
    ∧ (getCommentsForPost db postId ⟨some pg, some ps, sb, sd⟩ uid).pagesCount
        = cdiv (activeCommentsFor db postId).length ps := by
  constructor <;> simp [getCommentsForPost, hpg, hps]

/-- The LIMIT/OFFSET page of the post listing query (skip `(page-1)*pageSize`,
take `pageSize`). -/
def blogPageRows (db : DB) (blogId : String) (q : GetPostsQuery) : List PostRow :=
  ((sortedBlogPostRows db blogId q.sortBy (postsOrderDirection q.sortDirection)).drop
      ((q.pageNumber.getD 1 - 1) * q.pageSize.getD 10)).take (q.pageSize.getD 10)

/-- The envelope built by `getPostsByBlogId` when the direction token is
valid. -/
def postsEnv (db : DB) (blogId : String) (q : GetPostsQuery)
    (uid : Option String) : Paginated PostView :=
  { pagesCount := cdiv (activePostsFor db blogId).length (q.pageSize.getD 10),
    page := q.pageNumber.getD 1,
    pageSize := q.pageSize.getD 10,
    totalCount := (activePostsFor db blogId).length,
    items := (blogPageRows db blogId q).map
      (postItemView db ((blogPageRows db blogId q).map (fun p => p.id)) uid) }

theorem getPostsByBlogId_eq_ok (db : DB) (blogId : String) (q : GetPostsQuery)
    (uid : Option String)
    (hdir : postsOrderDirection q.sortDirection = "ASC" ∨
            postsOrderDirection q.sortDirection = "DESC") :
    getPostsByBlogId db blogId q uid = Except.ok (postsEnv db blogId q uid) := by
  simp only [getPostsByBlogId, postsEnv, blogPageRows]
  rw [if_pos hdir]

theorem postsPageItems_eq (db : DB) (blogId : String) (q : GetPostsQuery)
    (uid : Option String)
    (hdir : postsOrderDirection q.sortDirection = "ASC" ∨
            postsOrderDirection q.sortDirection = "DESC") :
    postsPageItems db blogId q uid = (postsEnv db blogId q uid).items := by
  unfold postsPageItems
  rw [getPostsByBlogId_eq_ok db blogId q uid hdir]

/-- **C6** Pagination math for both listings (positive `page`, `pageSize`, and
for posts a valid direction token): `totalCount` counts the filtered rows,
`pagesCount = ceil(totalCount / pageSize)` (characterized by
`totalCount ≤ pagesCount * pageSize < totalCount + pageSize`), each page is
the `(page-1)*pageSize` offset slice of the fixed sorted row set, no page
exceeds `pageSize` items, concatenating the items of pages `1..pagesCount`
reproduces the whole filtered set exactly once (for posts, by row identity),
and the sorted row set is a permutation of the filtered rows. -/
theorem pagination_math :
    (∀ (db : DB) (postId : String) (page ps : Nat) (sb sd : Option String)
       (uid : String), 0 < page → 0 < ps →
       (getCommentsForPost db postId ⟨some page, some ps, sb, sd⟩ uid).totalCount
           = (activeCommentsFor db postId).length
       ∧ (getCommentsForPost db postId ⟨some page, some ps, sb, sd⟩ uid).pagesCount
           = cdiv (activeCommentsFor db postId).length ps
       ∧ (activeCommentsFor db postId).length
           ≤ (getCommentsForPost db postId ⟨some page, some ps, sb, sd⟩ uid).pagesCount * ps
       ∧ (getCommentsForPost db postId ⟨some page, some ps, sb, sd⟩ uid).pagesCount * ps
           < (activeCommentsFor db postId).length + ps
       ∧ (getCommentsForPost db postId ⟨some page, some ps, sb, sd⟩ uid).items
           = (((sortedCommentRows db postId sb sd).drop ((page - 1) * ps)).take ps).map
               (commentItemView db uid)
       ∧ (getCommentsForPost db postId ⟨some page, some ps, sb, sd⟩ uid).items.length ≤ ps
       ∧ ((List.range (getCommentsForPost db postId ⟨some page, some ps, sb, sd⟩
              uid).pagesCount).map
            (fun i => (getCommentsForPost db postId ⟨some (i + 1), some ps, sb, sd⟩
              uid).items)).flatten
           = (sortedCommentRows db postId sb sd).map (commentItemView db uid)
       ∧ (sortedCommentRows db postId sb sd).Perm (activeCommentsFor db postId))
    ∧ (∀ (db : DB) (blogId : String) (page ps : Nat) (sb sd : Option String)
        (uid : Option String), 0 < page → 0 < ps →
        (postsOrderDirection sd = "ASC" ∨ postsOrderDirection sd = "DESC") →
        getPostsByBlogId db blogId ⟨some page, some ps, sb, sd⟩ uid
            = Except.ok (postsEnv db blogId ⟨some page, some ps, sb, sd⟩ uid)
        ∧ (postsEnv db blogId ⟨some page, some ps, sb, sd⟩ uid).totalCount
            = (activePostsFor db blogId).length
        ∧ (postsEnv db blogId ⟨some page, some ps, sb, sd⟩ uid).pagesCount
            = cdiv (activePostsFor db blogId).length ps
        ∧ (activePostsFor db blogId).length
            ≤ (postsEnv db blogId ⟨some page, some ps, sb, sd⟩ uid).pagesCount * ps
        ∧ (postsEnv db blogId ⟨some page, some ps, sb, sd⟩ uid).pagesCount * ps
            < (activePostsFor db blogId).length + ps
        ∧ (postsEnv db blogId ⟨some page, some ps, sb, sd⟩ uid).items.length ≤ ps
        ∧ ((List.range (postsEnv db blogId ⟨some page, some ps, sb, sd⟩
              uid).pagesCount).map
            (fun i => (postsPageItems db blogId ⟨some (i + 1), some ps, sb, sd⟩
              uid).map (fun v => v.id))).flatten
            = (sortedBlogPostRows db blogId sb (postsOrderDirection sd)).map
                (fun p => p.id)
        ∧ (sortedBlogPostRows db blogId sb (postsOrderDirection sd)).Perm
            (activePostsFor db blogId)) := by
  constructor
  · intro db postId page ps sb sd uid hpage hps
    have hpage' : ¬ page = 0 := by omega
    have hps' : ¬ ps = 0 := by omega
    have hperm : (sortedCommentRows db postId sb sd).Perm
        (activeCommentsFor db postId) := sortLe_perm _ _
    have hlen : (sortedCommentRows db postId sb sd).length
        = (activeCommentsFor db postId).length := hperm.length_eq
    obtain ⟨htot, hpc⟩ := getCommentsForPost_counts db postId page ps sb sd uid hpage' hps'
    have hitems := getCommentsForPost_items db postId page ps sb sd uid hpage' hps'
    refine ⟨htot, hpc, ?_, ?_, hitems, ?_, ?_, hperm⟩
    · rw [hpc]
      exact cdiv_mul_ge _ _ hps
    · rw [hpc]
      exact cdiv_mul_lt _ _ hps
    · rw [hitems, List.length_map, List.length_take]
      exact min_le_left _ _
    · have hpages : ∀ i ∈ List.range (cdiv (sortedCommentRows db postId sb sd).length ps),
          (getCommentsForPost db postId ⟨some (i + 1), some ps, sb, sd⟩ uid).items
            = (((sortedCommentRows db postId sb sd).drop (i * ps)).take ps).map
                (commentItemView db uid) := by
        intro i _
        rw [getCommentsForPost_items db postId (i + 1) ps sb sd uid (by omega) hps']
        simp
      rw [hpc, ← hlen, List.map_congr_left hpages, flatten_map_slices,
        chunks_flatten ps hps (sortedCommentRows db postId sb sd).length _ rfl]
  · intro db blogId page ps sb sd uid hpage hps hdir
    have hperm : (sortedBlogPostRows db blogId sb (postsOrderDirection sd)).Perm
        (activePostsFor db blogId) := sortLe_perm _ _
    have hlen : (sortedBlogPostRows db blogId sb (postsOrderDirection sd)).length
        = (activePostsFor db blogId).length := hperm.length_eq
    refine ⟨getPostsByBlogId_eq_ok db blogId _ uid hdir, rfl, ?_, ?_, ?_, ?_, ?_, hperm⟩
    · simp [postsEnv]
    · show (activePostsFor db blogId).length ≤ _
      simp only [postsEnv]
      exact cdiv_mul_ge _ _ hps
    · simp only [postsEnv]
      exact cdiv_mul_lt _ _ hps
    · simp only [postsEnv, blogPageRows, List.length_map, List.length_take]
      exact min_le_left _ _
    · have hpages : ∀ i ∈ List.range
          (cdiv (sortedBlogPostRows db blogId sb (postsOrderDirection sd)).length ps),
          (postsPageItems db blogId ⟨some (i + 1), some ps, sb, sd⟩ uid).map
              (fun v => v.id)
            = (((sortedBlogPostRows db blogId sb (postsOrderDirection sd)).drop
                (i * ps)).take ps).map (fun p => p.id) := by
        intro i _
        rw [postsPageItems_eq db blogId ⟨some (i + 1), some ps, sb, sd⟩ uid hdir]
        simp only [postsEnv, blogPageRows, List.map_map]
        simp [Option.getD_some]
        rfl
      have hpcval : (postsEnv db blogId ⟨some page, some ps, sb, sd⟩ uid).pagesCount
          = cdiv (sortedBlogPostRows db blogId sb (postsOrderDirection sd)).length ps := by
        simp only [postsEnv]
        rw [hlen]
        simp
      rw [hpcval, List.map_congr_left hpages, flatten_map_slices,
        chunks_flatten ps hps
          (sortedBlogPostRows db blogId sb (postsOrderDirection sd)).length _ rfl]

theorem pagination_math_witness :
    ((0 : Nat) < 1 ∧ (0 : Nat) < 2
      ∧ (postsOrderDirection none = "ASC" ∨ postsOrderDirection none = "DESC"))
    ∧ (getCommentsForPost pageDb "P1" ⟨some 1, some 2, none, none⟩ "U1").items.length ≤ 2
    ∧ getPostsByBlogId pageDb "G" ⟨some 1, some 2, none, none⟩ none
        = Except.ok (postsEnv pageDb "G" ⟨some 1, some 2, none, none⟩ none) :=
  ⟨⟨by decide, by decide, Or.inr (by decide)⟩,
   (pagination_math.1 pageDb "P1" 1 2 none none "U1" (by decide)
     (by decide)).2.2.2.2.2.1,
   (pagination_math.2 pageDb "G" 1 2 none none none (by decide) (by decide)
     (Or.inr (by decide))).1⟩

/-- **C7** (amended) The COMMENT listing maps the supplied sortDirection
case-insensitively: ascending exactly when its uppercasing is `ASC`, and
descending in every other case (missing, malformed, arbitrary strings).  The
POST listing only defaults a MISSING direction to `desc`; a supplied string is
uppercased and passed through unvalidated, so a token other than `ASC`/`DESC`
is interpolated into the SQL `ORDER BY` and the query fails instead of
sorting descending. -/
theorem sortDirection_handling :
    (∀ sd : Option String,
       (commentsSortDirection sd = "ASC" ↔ sd.map toUpperString = some "ASC")
       ∧ (commentsSortDirection sd = "ASC" ∨ commentsSortDirection sd = "DESC"))
    ∧ postsOrderDirection none = "DESC"
    ∧ (∀ s : String, postsOrderDirection (some s) = toUpperString s)
    ∧ (∀ (db : DB) (blogId : String) (q : GetPostsQuery) (uid : Option String),
       postsOrderDirection q.sortDirection ≠ "ASC" →
       postsOrderDirection q.sortDirection ≠ "DESC" →
       getPostsByBlogId db blogId q uid
         = Except.error "invalid ORDER BY direction") := by
  refine ⟨?_, by decide, fun s => rfl, ?_⟩
  · intro sd
    cases sd with
    | none =>
      refine ⟨?_, Or.inr rfl⟩
      simp [commentsSortDirection]
    | some s =>
      by_cases h : toUpperString s = "ASC"
      · refine ⟨?_, Or.inl (by simp [commentsSortDirection, h])⟩
        simp [commentsSortDirection, h]
      · refine ⟨?_, Or.inr (by simp [commentsSortDirection, h])⟩
        simp [commentsSortDirection, h]
  · intro db blogId q uid h1 h2
    simp only [getPostsByBlogId]
    rw [if_neg (not_or.mpr ⟨h1, h2⟩)]

/-- **C7** counterexample: for the post listing, the malformed direction
`bogus` is uppercased to `BOGUS` — neither the ascending nor the descending
SQL token — and the query errors instead of yielding a descending listing
(the comment listing does fall back to `DESC` for the same input). -/
theorem sortDirection_handling_counterexample :
    postsOrderDirection (some "bogus") = "BOGUS"
    ∧ (("BOGUS" : String) ≠ "ASC" ∧ ("BOGUS" : String) ≠ "DESC")
    ∧ getPostsByBlogId scenarioDb0 "B1" ⟨none, none, none, some "bogus"⟩ none
        = Except.error "invalid ORDER BY direction"
    ∧ commentsSortDirection (some "bogus") = "DESC" :=
  ⟨by decide, ⟨by decide, by decide⟩, rfl, by decide⟩

theorem sortDirection_handling_witness :
    (postsOrderDirection
        ((⟨none, none, none, some "xyz"⟩ : GetPostsQuery).sortDirection) ≠ "ASC"
      ∧ postsOrderDirection
        ((⟨none, none, none, some "xyz"⟩ : GetPostsQuery).sortDirection) ≠ "DESC")
    ∧ getPostsByBlogId scenarioDb0 "B1" ⟨none, none, none, some "xyz"⟩ none
        = Except.error "invalid ORDER BY direction"
    ∧ commentsSortDirection (some "aSc") = "ASC" :=
  ⟨⟨by decide, by decide⟩,
   sortDirection_handling.2.2.2 scenarioDb0 "B1" ⟨none, none, none, some "xyz"⟩ none
     (by decide) (by decide),
   (sortDirection_handling.1 (some "aSc")).1.mpr (by decide)⟩

/-- The existence lookup underlying the comment mutation guards: first active
comment row with the given id. -/
def activeComment (db : DB) (commentId : String) : Option CommentRow :=
  (db.comments.filter (fun c => c.id == commentId && c.deletion_status == "active")).head?

/-- **C8** For updateComment and deleteComment: a missing or soft-deleted
comment yields NotFound with the state unchanged (regardless of the caller),
an existing comment with a different author yields Forbidden with the state
unchanged, and the author's own call succeeds; the existence check is
evaluated before the authorship check, so a missing comment never produces an
authorization failure and a non-author never gets NotFound for an existing
comment. -/
theorem comment_mutation_guards (db : DB) (commentId content userId : String) :
    (activeComment db commentId = none →
       updateComment db commentId content userId = (some ServiceError.notFound, db)
       ∧ deleteComment db commentId userId = (some ServiceError.notFound, db))
    ∧ (∀ c : CommentRow, activeComment db commentId = some c → c.user_id ≠ userId →
       updateComment db commentId content userId = (some ServiceError.forbidden, db)
       ∧ deleteComment db commentId userId = (some ServiceError.forbidden, db))
    ∧ (∀ c : CommentRow, activeComment db commentId = some c → c.user_id = userId →
       updateComment db commentId content userId
         = (none, updateContent db commentId content)
       ∧ deleteComment db commentId userId
         = (none, deleteCommentRow db commentId)) := by
  refine ⟨?_, ?_, ?_⟩
  · intro h
    have h' : (db.comments.filter (fun c =>
        c.id == commentId && c.deletion_status == "active")).head? = none := h
    constructor
    · unfold updateComment findById
      rw [h']
    · unfold deleteComment findById
      rw [h']
  · intro c hc hne
    have h' : (db.comments.filter (fun c =>
        c.id == commentId && c.deletion_status == "active")).head? = some c := hc
    constructor
    · unfold updateComment findById
      rw [h']
      simp [hne]
    · unfold deleteComment findById
      rw [h']
      simp [hne]
  · intro c hc heq
    have h' : (db.comments.filter (fun c =>
        c.id == commentId && c.deletion_status == "active")).head? = some c := hc
    constructor
    · unfold updateComment findById
      rw [h']
      simp [heq]
    · unfold deleteComment findById
      rw [h']
      simp [heq]

def guardComment : CommentRow :=
  ⟨"C1", "some comment content here", "P1", "U1", "login1", 7, "active"⟩

def guardDb : DB := ⟨[], [guardComment], []⟩

theorem comment_mutation_guards_witness :
    activeComment guardDb "C1" = some guardComment
    ∧ guardComment.user_id ≠ "U2"
    ∧ updateComment guardDb "C1" "new content value here ok" "U2"
        = (some ServiceError.forbidden, guardDb)
    ∧ activeComment guardDb "C9" = none
    ∧ deleteComment guardDb "C9" "U1" = (some ServiceError.notFound, guardDb) :=
  ⟨by decide, by decide,
   ((comment_mutation_guards guardDb "C1" "new content value here ok" "U2").2.1
     guardComment (by decide) (by decide)).1,
   by decide,
   ((comment_mutation_guards guardDb "C9" "x" "U1").1 (by decide)).2⟩

/-- **C9** The single-comment fetch converts `created_at` with
`toISOString()`, but the comments-for-post listing passes the raw
`c.created_at` value through unchanged, contradicting the declared
`CommentOutputType.createdAt: string // ISO string` shape: for the same
stored comment (created at tick 7) `findById` yields an ISO value while the
listing item carries the raw timestamp. -/
theorem listing_createdAt_raw_bug :
    ((findById guardDb "C1" none).map (fun v => v.createdAt)) = some (TimeVal.iso 7)
    ∧ (getCommentsForPost guardDb "P1" ⟨none, none, none, none⟩ "").items.map
        (fun v => v.createdAt) = [TimeVal.raw 7] := by
  decide

/-- **C10** Soft delete is a pure status flip: `CommentRepository.delete`
leaves the likes and posts tables untouched and rewrites each comment row to
an identical row except that the row with the matching id gets
`deletion_status = 'deleted'`; `PostsRepository.deletePost` likewise leaves
likes and comments untouched and only flips `deletionStatus` of the post
matching both the post id and the blog id, preserving every other field
including the denormalized counters — reaction rows of a deleted entity
remain stored (orphaned), never cascade-deleted. -/
theorem soft_delete_frame (db : DB) (cid pid bid : String) :
    (deleteCommentRow db cid).likes = db.likes
    ∧ (deleteCommentRow db cid).posts = db.posts
    ∧ List.Forall₂ (fun c c' : CommentRow =>
        c'.id = c.id ∧ c'.content = c.content ∧ c'.post_id = c.post_id
        ∧ c'.user_id = c.user_id ∧ c'.user_login = c.user_login
        ∧ c'.created_at = c.created_at
        ∧ c'.deletion_status = (if c.id = cid then "deleted" else c.deletion_status))
        db.comments (deleteCommentRow db cid).comments
    ∧ (deletePost db pid bid).likes = db.likes
    ∧ (deletePost db pid bid).comments = db.comments
    ∧ List.Forall₂ (fun p p' : PostRow =>
        p'.id = p.id ∧ p'.title = p.title
        ∧ p'.shortDescription = p.shortDescription ∧ p'.content = p.content
        ∧ p'.blog_id = p.blog_id ∧ p'.blogName = p.blogName
        ∧ p'.likesCount = p.likesCount ∧ p'.dislikesCount = p.dislikesCount
        ∧ p'.created_at = p.created_at
        ∧ p'.deletionStatus
            = (if p.id == pid && p.blog_id == bid then "deleted" else p.deletionStatus))
        db.posts (deletePost db pid bid).posts := by
  refine ⟨rfl, rfl, ?_, rfl, rfl, ?_⟩
  · apply forall2_map_self
    intro c _
    by_cases h : c.id = cid <;> simp [h]
  · apply forall2_map_self
    intro p _
    by_cases h : (p.id == pid && p.blog_id == bid) = true <;> simp [h]
